import Mathlib

/-!
# Verification of the document-processor upload / duplicate-detection / status-tracking core

Shallow embedding of the repository's upload pipeline:

* `DupDetect` — the duplicate classifier of the desktop client (modelled from the
  specification, §4.4, since the desktop client's Python sources are not in the
  repository snapshot; only its READMEs are).
* `WebClient` — the Next.js page component (`handleFolderChange`,
  `handleUploadOnly`, `handleProcessOnly`, `handleUploadAndProcess`,
  `uploadFiles`) and the files API `PUT` route.
* `AppJs` — the plain JavaScript client (`app.js`): per-file upload loop,
  multipart form construction, single batch processing trigger.
* `Db` — the relational store declared by the Prisma migration
  (`FileMetadata`, `Log` with `ON DELETE SET NULL`).

Network calls are modelled by passing their outcomes as explicit parameters;
wall-clock values (timestamps, durations) are likewise parameters.  Display-only
string formatting that uses floating point (`formatFileSize`) is abstracted:
log messages keep their level and their identifying prefix, which is all the
verified properties depend on.
-/

namespace DupDetect

/-- Modelled from the spec: the desktop client's `DuplicateDetector` (described in
`src/src/README.md` as part of `file_manager.py`, whose source is not in the
repository snapshot).  Spec §4.4: `classify(contentHash, host, priorRecords) ->
{NEW | DUPLICATE | OVERWRITE(n)}`. -/
inductive Classification where
  | NEW : Classification
  | DUPLICATE : Classification
  | OVERWRITE : Nat → Classification
deriving DecidableEq, BEq

/-- Modelled from the spec: the view of a prior catalog record that duplicate
classification consults — its identity scope (`contentHash`, `host`) and whether
the record ever reached `PROCESSED` (spec §4.4 keys the decision strictly on
this). -/
structure PriorRecord where
  contentHash : String
  host : String
  reachedProcessed : Bool
deriving DecidableEq, BEq

/-- Prior records with the same `contentHash` and `host` (the duplicate-scoping
identity of spec §3). -/
def matchingPriors (contentHash host : String) (priors : List PriorRecord) : List PriorRecord :=
  priors.filter (fun r => r.contentHash == contentHash && r.host == host)

/-- Number of matching priors that reached `PROCESSED`. -/
def processedPriorCount (contentHash host : String) (priors : List PriorRecord) : Nat :=
  ((matchingPriors contentHash host priors).filter (fun r => r.reachedProcessed)).length

/-- Modelled from the spec: decision precedence of §4.4 —
1. no prior record with same hash+host ⇒ `NEW`;
2. at least one prior reached `PROCESSED` ⇒ `OVERWRITE(count of PROCESSED priors)`;
3. priors exist but none reached `PROCESSED` ⇒ `DUPLICATE`. -/
def classify (contentHash host : String) (priors : List PriorRecord) : Classification :=
  if (matchingPriors contentHash host priors).isEmpty then
    Classification.NEW
  else if 0 < processedPriorCount contentHash host priors then
    Classification.OVERWRITE (processedPriorCount contentHash host priors)
  else
    Classification.DUPLICATE

end DupDetect

/-- **C1.** `DuplicateDetector.classify(contentHash, host, priorRecords)` returns
`NEW` when no prior record with the same hash and host exists; `OVERWRITE(n)`
with `n` the number of matching priors that reached `PROCESSED` when at least
one such prior exists; and `DUPLICATE` otherwise.  In particular a single
matching prior that reached `PROCESSED` yields `OVERWRITE(1)` and two such
priors yield `OVERWRITE(2)`. -/
theorem C1_classify_spec (contentHash host : String) (priors : List DupDetect.PriorRecord) :
    (DupDetect.matchingPriors contentHash host priors = [] →
      DupDetect.classify contentHash host priors = DupDetect.Classification.NEW) ∧
    (0 < DupDetect.processedPriorCount contentHash host priors →
      DupDetect.classify contentHash host priors =
        DupDetect.Classification.OVERWRITE (DupDetect.processedPriorCount contentHash host priors)) ∧
    (DupDetect.matchingPriors contentHash host priors ≠ [] →
      DupDetect.processedPriorCount contentHash host priors = 0 →
      DupDetect.classify contentHash host priors = DupDetect.Classification.DUPLICATE) ∧
    (∀ p : DupDetect.PriorRecord, p.contentHash = contentHash → p.host = host →
      p.reachedProcessed = true →
      DupDetect.classify contentHash host [p] = DupDetect.Classification.OVERWRITE 1) ∧
    (∀ p q : DupDetect.PriorRecord, p.contentHash = contentHash → p.host = host →
      p.reachedProcessed = true → q.contentHash = contentHash → q.host = host →
      q.reachedProcessed = true →
      DupDetect.classify contentHash host [p, q] = DupDetect.Classification.OVERWRITE 2) := by
  refine ⟨?_, ?_, ?_, ?_, ?_⟩
  · intro h
    simp [DupDetect.classify, h]
  · intro h
    have hne : (DupDetect.matchingPriors contentHash host priors).isEmpty = false := by
      cases hb : (DupDetect.matchingPriors contentHash host priors).isEmpty
      · rfl
      · exfalso
        have hempty := List.isEmpty_iff.mp hb
        rw [DupDetect.processedPriorCount, hempty] at h
        simp at h
    rw [DupDetect.classify, hne]
    simp [h]
  · intro hne h0
    rw [DupDetect.classify]
    have hne' : ¬ (DupDetect.matchingPriors contentHash host priors).isEmpty = true := by
      simpa [List.isEmpty_iff] using hne
    simp [hne', h0]
  · intro p hch hh hp
    obtain ⟨pch, ph, pr⟩ := p
    simp only at hch hh hp
    subst hch hh hp
    simp [DupDetect.classify, DupDetect.matchingPriors, DupDetect.processedPriorCount]
  · intro p q hpch hph hp hqch hqh hq
    obtain ⟨pch, ph, pr⟩ := p
    obtain ⟨qch, qh, qr⟩ := q
    simp only at hpch hph hp hqch hqh hq
    subst hpch hph hp hqch hqh hq
    simp [DupDetect.classify, DupDetect.matchingPriors, DupDetect.processedPriorCount]

/-- Witness for `C1_classify_spec`: evaluated at a concrete hash, host and prior
lists — no prior ⇒ `NEW`; one processed prior ⇒ `OVERWRITE 1`; two processed
priors ⇒ `OVERWRITE 2`. -/
theorem C1_classify_spec_witness :
    DupDetect.classify "h1" "production" [] = DupDetect.Classification.NEW ∧
    DupDetect.classify "h1" "production" [⟨"h1", "production", true⟩] =
      DupDetect.Classification.OVERWRITE 1 ∧
    DupDetect.classify "h1" "production"
        [⟨"h1", "production", true⟩, ⟨"h1", "production", true⟩] =
      DupDetect.Classification.OVERWRITE 2 := by
  refine ⟨?_, ?_, ?_⟩
  · exact (C1_classify_spec "h1" "production" []).1 (by decide)
  · exact (C1_classify_spec "h1" "production" [⟨"h1", "production", true⟩]).2.2.2.1
      ⟨"h1", "production", true⟩ rfl rfl rfl
  · exact (C1_classify_spec "h1" "production"
        [⟨"h1", "production", true⟩, ⟨"h1", "production", true⟩]).2.2.2.2
      ⟨"h1", "production", true⟩ ⟨"h1", "production", true⟩ rfl rfl rfl rfl rfl rfl

namespace WebClient

/-- External status values (`type FileStatus` in the page component):
`"pending" | "uploaded" | "processed" | "error"`. -/
inductive FileStatus where
  | pending : FileStatus
  | uploaded : FileStatus
  | processed : FileStatus
  | error : FileStatus
deriving DecidableEq, BEq

/-- `interface FileMetadata` of the page component.  `host` is the
`Environment` string (`"local"` or `"production"`); timestamps are the ISO
strings the code stores; optional fields are `Option`. -/
structure FileMeta where
  id : String
  name : String
  sizeBytes : Nat
  relativePath : Option String
  lastModified : Nat
  selectedAt : Option String
  uploadedAt : Option String
  processedAt : Option String
  host : String
  status : FileStatus
  errorMessage : Option String
  computerName : Option String
  userName : Option String
  userAgent : Option String
  uploadDuration : Option Nat
  processDuration : Option Nat
  fileType : Option String
  mimeType : Option String
  checksum : Option String
  retryCount : Option Nat
deriving DecidableEq

/-- Outcome of the single batched upload request (`uploadFiles()` fetch):
`ok` carries the measured duration and the `new Date().toISOString()` taken on
success; `fail` carries the thrown error message (non-2xx status text or
transport error). -/
inductive UploadOutcome where
  | ok : Nat → String → UploadOutcome
  | fail : String → UploadOutcome
deriving DecidableEq, BEq

/-- Outcome of the processing trigger request (`processUploaded()` fetch). -/
inductive ProcessOutcome where
  | ok : Nat → String → ProcessOutcome
  | fail : String → ProcessOutcome
deriving DecidableEq, BEq

/-- Success branch of `handleUploadOnly`:
`{ ...m, status: "uploaded", uploadedAt, uploadDuration: duration }`. -/
def markUploaded (uploadedAt : String) (duration : Nat) (m : FileMeta) : FileMeta :=
  { m with status := FileStatus.uploaded, uploadedAt := some uploadedAt,
           uploadDuration := some duration }

/-- Failure branch of `handleUploadOnly` / `handleProcessOnly`:
`{ ...m, status: "error", errorMessage: message, retryCount: (m.retryCount || 0) + 1 }`. -/
def markError (message : String) (m : FileMeta) : FileMeta :=
  { m with status := FileStatus.error, errorMessage := some message,
           retryCount := some ((m.retryCount.getD 0) + 1) }

/-- Success branch of `handleProcessOnly`:
`{ ...m, status: "processed", processedAt, processDuration: duration }`. -/
def markProcessed (processedAt : String) (duration : Nat) (m : FileMeta) : FileMeta :=
  { m with status := FileStatus.processed, processedAt := some processedAt,
           processDuration := some duration }

/-- `handleUploadOnly` of the page component, as a function of the state
snapshot it closes over.  `filteredCount` is `filteredFiles.length`; when it is
`0` the handler returns after logging, touching no record.  Otherwise the whole
batch goes out as one request: on success every record is marked `uploaded`, on
failure (non-2xx or thrown fetch) every record is marked `error` with its
`retryCount` incremented. -/
def handleUploadOnly (filteredCount : Nat) (metas : List FileMeta)
    (outcome : UploadOutcome) : List FileMeta :=
  if filteredCount = 0 then metas
  else
    match outcome with
    | UploadOutcome.ok duration uploadedAt => metas.map (markUploaded uploadedAt duration)
    | UploadOutcome.fail message => metas.map (markError message)

/-- `handleProcessOnly` of the page component.  It returns untouched when no
record of the snapshot is `uploaded`; otherwise on success it maps **every**
record (whatever its status) to `processed`, and on failure it maps every
record to `error` with `retryCount` incremented. -/
def handleProcessOnly (metas : List FileMeta) (outcome : ProcessOutcome) : List FileMeta :=
  if (metas.filter (fun m => m.status == FileStatus.uploaded)).isEmpty then metas
  else
    match outcome with
    | ProcessOutcome.ok duration processedAt => metas.map (markProcessed processedAt duration)
    | ProcessOutcome.fail message => metas.map (markError message)

/-- A concrete pending record (as built by `handleFolderChange`). -/
def demoPending : FileMeta :=
  { id := "a.txt-10-0-0", name := "a.txt", sizeBytes := 10, relativePath := none,
    lastModified := 0, selectedAt := some "2025-01-01T00:00:00.000Z",
    uploadedAt := none, processedAt := none, host := "production",
    status := FileStatus.pending, errorMessage := none, computerName := some "Win32",
    userName := some "Unknown", userAgent := some "UA", uploadDuration := none,
    processDuration := none, fileType := some "Text File", mimeType := some "text/plain",
    checksum := none, retryCount := some 0 }

/-- A concrete record that reached `uploaded`. -/
def demoUploaded : FileMeta :=
  { demoPending with
    id := "b.pdf-20-0-1", name := "b.pdf",
    status := FileStatus.uploaded, uploadedAt := some "2025-01-01T00:01:00.000Z",
    uploadDuration := some 120, fileType := some "PDF Document",
    mimeType := some "application/pdf" }

/-- A concrete record after two failed upload attempts. -/
def demoFailedTwice : FileMeta :=
  { demoPending with
    status := FileStatus.error,
    errorMessage := some "Yükleme başarısız: 500", retryCount := some 2 }

end WebClient

namespace AppJs

/-- Per-file fetch result in the `app.js` upload loop: `ok success message`
models a response whose JSON parsed to `{ success, message }` (with
`result.message || ""` already applied); `err message` models a thrown fetch
(transport error). -/
inductive FetchResult where
  | ok : Bool → String → FetchResult
  | err : String → FetchResult
deriving DecidableEq, BEq

/-- One `<tr>` row appended by the loop: file name, upload status string and
message. -/
structure Row where
  name : String
  uploadStatus : String
  uploadMessage : String
deriving DecidableEq, BEq

/-- Body of one loop iteration of the `uploadBtn` click handler: the row's
status is `"Success"` or `"Failed"` from `result.success`, or `"Error"` when
the fetch threw. -/
def rowFor (name : String) (r : FetchResult) : Row :=
  match r with
  | FetchResult.ok true message => { name := name, uploadStatus := "Success", uploadMessage := message }
  | FetchResult.ok false message => { name := name, uploadStatus := "Failed", uploadMessage := message }
  | FetchResult.err message => { name := name, uploadStatus := "Error", uploadMessage := message }

/-- The whole upload loop of `app.js`: one awaited fetch per filtered file,
each wrapped in its own `try`/`catch`, each producing its own row; the loop
never aborts early. -/
def uploadBatch (files : List String) (results : List FetchResult) : List Row :=
  List.zipWith rowFor files results

end AppJs

/-- `List.zipWith` evaluated at one index: the element at `i` is determined by
the two inputs at `i` alone. -/
theorem zipWith_get?_eq {α β γ : Type} (f : α → β → γ) :
    ∀ (as : List α) (bs : List β) (i : Nat),
      (List.zipWith f as bs).get? i = (as.get? i).bind (fun a => (bs.get? i).map (f a)) := by
  intro as
  induction as with
  | nil => intro bs i; simp
  | cons a as ih =>
    intro bs i
    cases bs with
    | nil => simp
    | cons b bs =>
      cases i with
      | zero => simp
      | succ j => simpa using ih bs j

/-- **C2 counterexample.** The claim fails on the web client: `handleUploadOnly`
submits the whole batch as a single request, and when that request fails (here
for a two-record batch, i.e. for each file's only upload attempt) the *other*
record of the batch does not stay unchanged — it is marked `error` as well. -/
theorem C2_batch_failure_counterexample :
    (WebClient.handleUploadOnly 2 [WebClient.demoPending, WebClient.demoUploaded]
        (WebClient.UploadOutcome.fail "Yükleme başarısız: 500")).get? 1 ≠
      some WebClient.demoUploaded ∧
    ((WebClient.handleUploadOnly 2 [WebClient.demoPending, WebClient.demoUploaded]
        (WebClient.UploadOutcome.fail "Yükleme başarısız: 500")).get? 1).map
        WebClient.FileMeta.status = some WebClient.FileStatus.error := by
  constructor
  · decide
  · decide

/-- **C2 (amended).** In `app.js` each file's outcome is independent: the row
for position `i` depends only on that file's own fetch result, so changing any
other file's result (in particular failing it) leaves row `i` unchanged, and
the loop produces a row for every file (no error aborts the batch).  In the
web client, by contrast, the batch goes out as one request and a failure of
that request marks **every** record of the batch `error` with `errorMessage`
set and `retryCount` incremented. -/
theorem C2_per_file_independence_amended
    (files : List String) (results results2 : List AppJs.FetchResult) (i : Nat)
    (metas : List WebClient.FileMeta) (message : String) :
    (results.get? i = results2.get? i →
      (AppJs.uploadBatch files results).get? i = (AppJs.uploadBatch files results2).get? i) ∧
    (results.length = files.length →
      (AppJs.uploadBatch files results).length = files.length) ∧
    ((WebClient.handleUploadOnly (metas.length + 1) metas
        (WebClient.UploadOutcome.fail message)).all
      (fun m => m.status == WebClient.FileStatus.error &&
        m.errorMessage == some message) = true) ∧
    (∀ j, ((WebClient.handleUploadOnly (metas.length + 1) metas
        (WebClient.UploadOutcome.fail message)).get? j).map WebClient.FileMeta.retryCount =
      (metas.get? j).map (fun m => some ((m.retryCount.getD 0) + 1))) := by
  refine ⟨?_, ?_, ?_, ?_⟩
  · intro h
    rw [AppJs.uploadBatch, AppJs.uploadBatch, zipWith_get?_eq, zipWith_get?_eq, h]
  · intro h
    simp [AppJs.uploadBatch, h]
  · rw [WebClient.handleUploadOnly]
    simp only [Nat.succ_ne_zero, if_false]
    rw [List.all_eq_true]
    intro m hm
    rw [List.mem_map] at hm
    obtain ⟨m0, _, rfl⟩ := hm
    simp [WebClient.markError]
    decide
  · intro j
    rw [WebClient.handleUploadOnly]
    simp only [Nat.succ_ne_zero, if_false]
    rw [List.get?_map]
    cases metas.get? j with
    | none => rfl
    | some m => simp [WebClient.markError]

/-- Witness for `C2_per_file_independence_amended`: at a two-file batch where
only the second file's result changes, the first row is unchanged; and the
failing web batch of one pending record yields `retryCount = 1`. -/
theorem C2_per_file_independence_amended_witness :
    (AppJs.uploadBatch ["a.txt", "b.pdf"]
        [AppJs.FetchResult.ok true "", AppJs.FetchResult.ok true ""]).get? 0 =
      (AppJs.uploadBatch ["a.txt", "b.pdf"]
        [AppJs.FetchResult.ok true "", AppJs.FetchResult.err "boom"]).get? 0 ∧
    ((WebClient.handleUploadOnly 1 [WebClient.demoPending]
        (WebClient.UploadOutcome.fail "boom")).get? 0).map WebClient.FileMeta.retryCount =
      some (some 1) := by
  constructor
  · exact (C2_per_file_independence_amended ["a.txt", "b.pdf"]
      [AppJs.FetchResult.ok true "", AppJs.FetchResult.ok true ""]
      [AppJs.FetchResult.ok true "", AppJs.FetchResult.err "boom"] 0
      [WebClient.demoPending] "boom").1 (by decide)
  · have h := (C2_per_file_independence_amended ["a.txt", "b.pdf"]
      [AppJs.FetchResult.ok true "", AppJs.FetchResult.ok true ""]
      [AppJs.FetchResult.ok true "", AppJs.FetchResult.err "boom"] 0
      [WebClient.demoPending] "boom").2.2.2 0
    simpa [WebClient.demoPending] using h

/-- **C3 counterexample.** When the processing trigger fails, an included
(`uploaded`) record does not keep status `uploaded`: the catch branch of
`handleProcessOnly` moves it to `error`. -/
theorem C3_process_failure_counterexample :
    ((WebClient.handleProcessOnly [WebClient.demoUploaded]
        (WebClient.ProcessOutcome.fail "İşleme başarısız: 500")).get? 0).map
      WebClient.FileMeta.status ≠ some WebClient.FileStatus.uploaded ∧
    ((WebClient.handleProcessOnly [WebClient.demoUploaded]
        (WebClient.ProcessOutcome.fail "İşleme başarısız: 500")).get? 0).map
      WebClient.FileMeta.status = some WebClient.FileStatus.error := by
  constructor
  · decide
  · decide

/-- **C3 (amended).** When the processing trigger call fails (non-2xx or
transport error) no record is advanced to `processed` — but the included
records do not keep `uploaded`: the handler sets **every** record of the
snapshot (whatever its status) to `error`, with `errorMessage` set and
`retryCount` incremented. -/
theorem C3_process_failure_amended (metas : List WebClient.FileMeta) (message : String)
    (h : (metas.filter (fun m => m.status == WebClient.FileStatus.uploaded)).isEmpty = false) :
    ((WebClient.handleProcessOnly metas (WebClient.ProcessOutcome.fail message)).all
      (fun m => m.status == WebClient.FileStatus.error &&
        m.status != WebClient.FileStatus.processed &&
        m.errorMessage == some message) = true) ∧
    ((WebClient.handleProcessOnly metas (WebClient.ProcessOutcome.fail message)).length =
      metas.length) ∧
    (∀ j, ((WebClient.handleProcessOnly metas
        (WebClient.ProcessOutcome.fail message)).get? j).map WebClient.FileMeta.retryCount =
      (metas.get? j).map (fun m => some ((m.retryCount.getD 0) + 1))) := by
  refine ⟨?_, ?_, ?_⟩
  · rw [WebClient.handleProcessOnly, h]
    simp only [Bool.false_eq_true, if_false]
    rw [List.all_eq_true]
    intro m hm
    rw [List.mem_map] at hm
    obtain ⟨m0, _, rfl⟩ := hm
    simp [WebClient.markError]
    decide
  · rw [WebClient.handleProcessOnly, h]
    simp
  · intro j
    rw [WebClient.handleProcessOnly, h]
    simp only [Bool.false_eq_true, if_false]
    rw [List.get?_map]
    cases metas.get? j with
    | none => rfl
    | some m => simp [WebClient.markError]

/-- Witness for `C3_process_failure_amended`: the singleton batch holding one
`uploaded` record; after the failed trigger its record reads `error` with
`retryCount = 1`. -/
theorem C3_process_failure_amended_witness :
    ((WebClient.handleProcessOnly [WebClient.demoUploaded]
        (WebClient.ProcessOutcome.fail "boom")).all
      (fun m => m.status == WebClient.FileStatus.error &&
        m.status != WebClient.FileStatus.processed &&
        m.errorMessage == some "boom") = true) ∧
    ((WebClient.handleProcessOnly [WebClient.demoUploaded]
        (WebClient.ProcessOutcome.fail "boom")).get? 0).map WebClient.FileMeta.retryCount =
      some (some 1) := by
  constructor
  · exact (C3_process_failure_amended [WebClient.demoUploaded] "boom" (by decide)).1
  · have h := (C3_process_failure_amended [WebClient.demoUploaded] "boom" (by decide)).2.2 0
    simpa [WebClient.demoUploaded, WebClient.demoPending] using h

/-- **C4 counterexample.** A successful processing trigger does not leave
non-`uploaded` records unchanged: with a batch holding one `uploaded` and one
`pending` record, the `pending` record is stamped `processed` as well. -/
theorem C4_process_success_counterexample :
    WebClient.demoPending.status = WebClient.FileStatus.pending ∧
    ((WebClient.handleProcessOnly [WebClient.demoUploaded, WebClient.demoPending]
        (WebClient.ProcessOutcome.ok 50 "2025-01-01T00:02:00.000Z")).get? 1).map
      WebClient.FileMeta.status ≠ some WebClient.FileStatus.pending ∧
    ((WebClient.handleProcessOnly [WebClient.demoUploaded, WebClient.demoPending]
        (WebClient.ProcessOutcome.ok 50 "2025-01-01T00:02:00.000Z")).get? 1).map
      WebClient.FileMeta.status = some WebClient.FileStatus.processed := by
  refine ⟨rfl, by decide, by decide⟩

/-- **C4 (amended).** A successful processing trigger fires only when at least
one record of the snapshot is `uploaded`, and it then advances **every** record
of the snapshot — whatever its previous status — to `processed`, setting
`processedAt` and `processDuration` on each; records in other statuses do not
keep their status.  (When no record is `uploaded` the handler returns the
snapshot untouched.) -/
theorem C4_process_success_amended (metas : List WebClient.FileMeta)
    (duration : Nat) (processedAt : String) :
    ((metas.filter (fun m => m.status == WebClient.FileStatus.uploaded)).isEmpty = false →
      (WebClient.handleProcessOnly metas
          (WebClient.ProcessOutcome.ok duration processedAt)).all
        (fun m => m.status == WebClient.FileStatus.processed &&
          m.processedAt == some processedAt &&
          m.processDuration == some duration) = true) ∧
    ((metas.filter (fun m => m.status == WebClient.FileStatus.uploaded)).isEmpty = true →
      WebClient.handleProcessOnly metas
        (WebClient.ProcessOutcome.ok duration processedAt) = metas) := by
  constructor
  · intro h
    rw [WebClient.handleProcessOnly, h]
    simp only [Bool.false_eq_true, if_false]
    rw [List.all_eq_true]
    intro m hm
    rw [List.mem_map] at hm
    obtain ⟨m0, _, rfl⟩ := hm
    simp [WebClient.markProcessed]
    decide
  · intro h
    rw [WebClient.handleProcessOnly, h]
    simp

/-- Witness for `C4_process_success_amended`: the mixed two-record batch — after
the successful trigger both records, including the `pending` one, read
`processed`. -/
theorem C4_process_success_amended_witness :
    ((WebClient.handleProcessOnly [WebClient.demoUploaded, WebClient.demoPending]
        (WebClient.ProcessOutcome.ok 50 "t")).all
      (fun m => m.status == WebClient.FileStatus.processed &&
        m.processedAt == some "t" && m.processDuration == some 50) = true) ∧
    (WebClient.handleProcessOnly [WebClient.demoPending]
        (WebClient.ProcessOutcome.ok 50 "t") = [WebClient.demoPending]) := by
  constructor
  · exact (C4_process_success_amended [WebClient.demoUploaded, WebClient.demoPending]
      50 "t").1 (by decide)
  · exact (C4_process_success_amended [WebClient.demoPending] 50 "t").2 (by decide)

/-- **C5 counterexample.** A successful upload after failures does **not** set
`retryCount` back to 0: the success branch of `handleUploadOnly` copies the old
`retryCount` — here the record moves to `uploaded` while `retryCount` stays 2. -/
theorem C5_retry_reset_counterexample :
    ((WebClient.handleUploadOnly 1 [WebClient.demoFailedTwice]
        (WebClient.UploadOutcome.ok 100 "2025-01-01T00:03:00.000Z")).get? 0).map
      WebClient.FileMeta.status = some WebClient.FileStatus.uploaded ∧
    ((WebClient.handleUploadOnly 1 [WebClient.demoFailedTwice]
        (WebClient.UploadOutcome.ok 100 "2025-01-01T00:03:00.000Z")).get? 0).map
      WebClient.FileMeta.retryCount ≠ some (some 0) ∧
    ((WebClient.handleUploadOnly 1 [WebClient.demoFailedTwice]
        (WebClient.UploadOutcome.ok 100 "2025-01-01T00:03:00.000Z")).get? 0).map
      WebClient.FileMeta.retryCount = some (some 2) := by
  refine ⟨by decide, by decide, by decide⟩

/-- **C5 (amended).** `retryCount` is a natural number (hence ≥ 0) and each
failed upload or processing attempt increments it by exactly 1 (reading a
missing value as 0); it never decreases — but it is **not** reset on success:
a successful upload (and a successful processing pass) leaves every record's
`retryCount` at its prior value. -/
theorem C5_retry_count_amended (metas : List WebClient.FileMeta)
    (filteredCount duration : Nat) (stamp message : String) (j : Nat) :
    (0 < filteredCount →
      ((WebClient.handleUploadOnly filteredCount metas
          (WebClient.UploadOutcome.fail message)).get? j).map WebClient.FileMeta.retryCount =
        (metas.get? j).map (fun m => some ((m.retryCount.getD 0) + 1))) ∧
    (0 < filteredCount →
      ((WebClient.handleUploadOnly filteredCount metas
          (WebClient.UploadOutcome.ok duration stamp)).get? j).map WebClient.FileMeta.retryCount =
        (metas.get? j).map WebClient.FileMeta.retryCount) ∧
    ((metas.filter (fun m => m.status == WebClient.FileStatus.uploaded)).isEmpty = false →
      ((WebClient.handleProcessOnly metas
          (WebClient.ProcessOutcome.fail message)).get? j).map WebClient.FileMeta.retryCount =
        (metas.get? j).map (fun m => some ((m.retryCount.getD 0) + 1))) ∧
    ((metas.filter (fun m => m.status == WebClient.FileStatus.uploaded)).isEmpty = false →
      ((WebClient.handleProcessOnly metas
          (WebClient.ProcessOutcome.ok duration stamp)).get? j).map WebClient.FileMeta.retryCount =
        (metas.get? j).map WebClient.FileMeta.retryCount) := by
  refine ⟨?_, ?_, ?_, ?_⟩
  · intro h
    rw [WebClient.handleUploadOnly]
    rw [if_neg (by omega)]
    rw [List.get?_map]
    cases metas.get? j with
    | none => rfl
    | some m => simp [WebClient.markError]
  · intro h
    rw [WebClient.handleUploadOnly]
    rw [if_neg (by omega)]
    rw [List.get?_map]
    cases metas.get? j with
    | none => rfl
    | some m => simp [WebClient.markUploaded]
  · intro h
    rw [WebClient.handleProcessOnly, h]
    simp only [Bool.false_eq_true, if_false]
    rw [List.get?_map]
    cases metas.get? j with
    | none => rfl
    | some m => simp [WebClient.markError]
  · intro h
    rw [WebClient.handleProcessOnly, h]
    simp only [Bool.false_eq_true, if_false]
    rw [List.get?_map]
    cases metas.get? j with
    | none => rfl
    | some m => simp [WebClient.markProcessed]

/-- Witness for `C5_retry_count_amended`: a one-record batch whose record
already failed twice — a further failed upload yields `retryCount = 3`, a
successful upload keeps `retryCount = 2`. -/
theorem C5_retry_count_amended_witness :
    ((WebClient.handleUploadOnly 1 [WebClient.demoFailedTwice]
        (WebClient.UploadOutcome.fail "boom")).get? 0).map WebClient.FileMeta.retryCount =
      some (some 3) ∧
    ((WebClient.handleUploadOnly 1 [WebClient.demoFailedTwice]
        (WebClient.UploadOutcome.ok 100 "t")).get? 0).map WebClient.FileMeta.retryCount =
      some (some 2) := by
  constructor
  · have h := (C5_retry_count_amended [WebClient.demoFailedTwice] 1 100 "t" "boom" 0).1
      (by decide)
    simpa [WebClient.demoFailedTwice, WebClient.demoPending] using h
  · have h := (C5_retry_count_amended [WebClient.demoFailedTwice] 1 100 "t" "boom" 0).2.1
      (by decide)
    simpa [WebClient.demoFailedTwice, WebClient.demoPending] using h

namespace Forms

/-- A multipart form entry value: a file part or a plain text field. -/
inductive FormValue where
  | filePart : String → FormValue
  | text : String → FormValue
deriving DecidableEq, BEq

/-- The `FormData` built per file by the `app.js` upload loop:
`file`, `uploaded_at` (the ISO timestamp), `uploaded_by`
(`navigator.userAgent`) and `original_path` (`file.webkitRelativePath`). -/
def appJsUploadForm (fileName nowIso userAgent relativePath : String) :
    List (String × FormValue) :=
  [("file", FormValue.filePart fileName),
   ("uploaded_at", FormValue.text nowIso),
   ("uploaded_by", FormValue.text userAgent),
   ("original_path", FormValue.text relativePath)]

/-- The `FormData` built by `uploadFiles()` in the web client: one `files`
part per filtered file and nothing else. -/
def webUploadForm (fileNames : List String) : List (String × FormValue) :=
  fileNames.map (fun n => ("files", FormValue.filePart n))

end Forms

/-- **C6 counterexample.** Not every upload request carries the three metadata
fields: the web client's batched upload form for one file consists of `files`
parts only — `uploaded_at`, `uploaded_by` and `original_path` are all absent. -/
theorem C6_metadata_counterexample :
    (Forms.webUploadForm ["a.txt"]).map Prod.fst = ["files"] ∧
    "uploaded_at" ∉ (Forms.webUploadForm ["a.txt"]).map Prod.fst ∧
    "uploaded_by" ∉ (Forms.webUploadForm ["a.txt"]).map Prod.fst ∧
    "original_path" ∉ (Forms.webUploadForm ["a.txt"]).map Prod.fst := by
  refine ⟨rfl, by decide, by decide, by decide⟩

/-- **C6 (amended).** Only `app.js` sends the documented multipart body: each
of its per-file requests contains the file part plus all three metadata fields
(`uploaded_at`, `uploaded_by`, `original_path`).  The web client's single
batched request contains only `files` file parts — one per submitted file —
and no metadata field at all. -/
theorem C6_upload_form_amended (fileName nowIso userAgent relativePath : String)
    (fileNames : List String) :
    ("file", Forms.FormValue.filePart fileName) ∈
      Forms.appJsUploadForm fileName nowIso userAgent relativePath ∧
    ("uploaded_at", Forms.FormValue.text nowIso) ∈
      Forms.appJsUploadForm fileName nowIso userAgent relativePath ∧
    ("uploaded_by", Forms.FormValue.text userAgent) ∈
      Forms.appJsUploadForm fileName nowIso userAgent relativePath ∧
    ("original_path", Forms.FormValue.text relativePath) ∈
      Forms.appJsUploadForm fileName nowIso userAgent relativePath ∧
    (Forms.webUploadForm fileNames).length = fileNames.length ∧
    ((Forms.webUploadForm fileNames).all (fun e => e.fst == "files") = true) := by
  refine ⟨?_, ?_, ?_, ?_, ?_, ?_⟩
  · simp [Forms.appJsUploadForm]
  · simp [Forms.appJsUploadForm]
  · simp [Forms.appJsUploadForm]
  · simp [Forms.appJsUploadForm]
  · simp [Forms.webUploadForm]
  · rw [List.all_eq_true]
    intro e he
    rw [Forms.webUploadForm, List.mem_map] at he
    obtain ⟨n, _, rfl⟩ := he
    rfl

namespace Traces

/-- An externally observable event of one operator-initiated run: the settling
(success or failure) of the upload request for the file at `index`, or the
issuing of the batch processing-trigger request. -/
inductive Event where
  | uploadSettled : Nat → Event
  | triggerIssued : Event
deriving DecidableEq

/-- The event trace of one `app.js` run over `n` filtered files: the loop
awaits each per-file upload in order, and only after the loop completes is the
single `process-uploads` fetch issued (unconditionally). -/
def appJsTrace (n : Nat) : List Event :=
  ((List.range n).map Event.uploadSettled) ++ [Event.triggerIssued]

/-- Whether the batched upload request failed. -/
def outcomeFailed : WebClient.UploadOutcome → Bool
  | WebClient.UploadOutcome.ok _ _ => false
  | WebClient.UploadOutcome.fail _ => true

/-- The event trace of one web-client `handleUploadAndProcess` run.
`snapshot` is the `fileMetadata` state captured by the handler's closure at
the start of the run (React state updates inside the run are not visible to
it); `filteredCount` is `filteredFiles.length`.  `handleUploadOnly` issues one
batched upload request unless the filter is empty; afterwards
`handleProcessOnly` is reached only when the snapshot already holds an
`uploaded` record, and its own guard reads the same snapshot, so the trigger
fires exactly when the snapshot has an `uploaded` record. -/
def webRunTrace (snapshot : List WebClient.FileMeta) (filteredCount : Nat)
    (_outcome : WebClient.UploadOutcome) : List Event :=
  (if filteredCount = 0 then ([] : List Event) else [Event.uploadSettled 0]) ++
    (if snapshot.any (fun m => m.status == WebClient.FileStatus.uploaded) then
      [Event.triggerIssued]
    else ([] : List Event))

end Traces

/-- **C7 counterexample.** The web client does not always issue exactly one
processing trigger per run: a fresh batch (snapshot all `pending`) whose
batched upload fails issues none — under the stale-snapshot semantics the
handler consults, and equally under a post-upload reading, since no record is
`uploaded` after the failure. -/
theorem C7_trigger_counterexample :
    (Traces.webRunTrace [WebClient.demoPending] 1
        (WebClient.UploadOutcome.fail "Yükleme başarısız: 500")).count
      Traces.Event.triggerIssued = 0 ∧
    ¬ (Traces.webRunTrace [WebClient.demoPending] 1
        (WebClient.UploadOutcome.fail "Yükleme başarısız: 500")).count
      Traces.Event.triggerIssued = 1 := by
  refine ⟨by decide, by decide⟩

/-- **C7 (amended).** Per operator-initiated run, the processing trigger is
issued **at most** once — never once per file — and never before every upload
request of the batch has settled: in every trace it can only be the final
event.  `app.js` issues it exactly once, after all `n` per-file uploads have
settled; the web client issues it only when its state snapshot holds an
`uploaded` record (in particular not when the batch upload just failed on a
fresh batch), and otherwise not at all. -/
theorem C7_trigger_amended (n : Nat) (snapshot : List WebClient.FileMeta)
    (filteredCount : Nat) (outcome : WebClient.UploadOutcome) :
    (Traces.appJsTrace n).count Traces.Event.triggerIssued = 1 ∧
    (Traces.appJsTrace n).getLast? = some Traces.Event.triggerIssued ∧
    ((Traces.appJsTrace n).dropLast.all
      (fun e => e != Traces.Event.triggerIssued) = true) ∧
    (Traces.appJsTrace n).dropLast.length = n ∧
    (Traces.webRunTrace snapshot filteredCount outcome).count
      Traces.Event.triggerIssued ≤ 1 ∧
    ((Traces.webRunTrace snapshot filteredCount outcome).dropLast.all
      (fun e => e != Traces.Event.triggerIssued) = true) := by
  refine ⟨?_, ?_, ?_, ?_, ?_, ?_⟩
  · rw [Traces.appJsTrace, List.count_append]
    have h0 : ((List.range n).map Traces.Event.uploadSettled).count
        Traces.Event.triggerIssued = 0 := by
      rw [List.count_eq_zero]
      intro hmem
      rw [List.mem_map] at hmem
      obtain ⟨i, _, hi⟩ := hmem
      exact absurd hi (by simp)
    rw [h0]
    rfl
  · rw [Traces.appJsTrace, List.getLast?_concat]
  · rw [Traces.appJsTrace, List.dropLast_concat, List.all_eq_true]
    intro e he
    rw [List.mem_map] at he
    obtain ⟨i, _, rfl⟩ := he
    simp [bne_iff_ne]
  · rw [Traces.appJsTrace, List.dropLast_concat, List.length_map, List.length_range]
  · rw [Traces.webRunTrace]
    rcases hc : filteredCount with _ | k
    · rcases ha : snapshot.any (fun m => m.status == WebClient.FileStatus.uploaded)
      · decide
      · decide
    · rw [if_neg (Nat.succ_ne_zero k)]
      rcases ha : snapshot.any (fun m => m.status == WebClient.FileStatus.uploaded)
      · decide
      · decide
  · rw [Traces.webRunTrace]
    rcases hc : filteredCount with _ | k
    · rcases ha : snapshot.any (fun m => m.status == WebClient.FileStatus.uploaded)
      · decide
      · decide
    · rw [if_neg (Nat.succ_ne_zero k)]
      rcases ha : snapshot.any (fun m => m.status == WebClient.FileStatus.uploaded)
      · decide
      · decide

namespace WebClient

/-- Log severity levels of `addLog` (`'info' | 'success' | 'warning' | 'error'`). -/
inductive LogLevel where
  | info : LogLevel
  | success : LogLevel
  | warning : LogLevel
  | error : LogLevel
deriving DecidableEq, BEq

/-- A log entry as produced by `addLog`: its message and level.  (The rendered
timestamp prefix and icon are presentation only.) -/
structure LogMsg where
  message : String
  level : LogLevel
deriving DecidableEq, BEq

/-- A file of the `FileList` delivered by the folder picker. -/
structure SelectedFile where
  name : String
  size : Nat
  lastModified : Nat
  relativePath : Option String
  mimeType : String
deriving DecidableEq

/-- `SUPPORTED_EXTENSIONS` of the page component. -/
def SUPPORTED_EXTENSIONS : List String := [".txt", ".pdf", ".docx", ".md"]

/-- `toLowerCase()`, character by character.  (Stated over the character list
so that it evaluates inside the kernel; `String.toLower` agrees with it.) -/
def toLowerStr (s : String) : String :=
  String.mk (s.data.map Char.toLower)

/-- `String.prototype.endsWith`, via list suffixes. -/
def strEndsWith (s post : String) : Bool :=
  List.isSuffixOf post.data s.data

/-- `isSupportedFile`: the lower-cased name ends with a supported extension. -/
def isSupportedName (name : String) : Bool :=
  SUPPORTED_EXTENSIONS.any (fun ext => strEndsWith (toLowerStr name) ext)

/-- `isSupportedFile` lifted to a selected file. -/
def isSupportedFile (f : SelectedFile) : Bool :=
  isSupportedName f.name

/-- `getFileType`: human-readable type from the final name segment, falling
back to the MIME type (`mimeType || 'Unknown'`). -/
def getFileType (f : SelectedFile) : String :=
  let extension := ((f.name.splitOn ".").getLast?.getD "").toLower
  if extension = "pdf" then "PDF Document"
  else if extension = "docx" then "Word Document"
  else if extension = "txt" then "Text File"
  else if extension = "md" then "Markdown File"
  else if f.mimeType = "" then "Unknown" else f.mimeType

/-- The `FileMetadata` object `handleFolderChange` builds for the supported
file at position `index`:
`id` is the template string, status starts `"pending"`, `retryCount` 0,
`checksum` and the upload/processing fields unset. -/
def mkMeta (nowIso environment computerName userName userAgent : String)
    (index : Nat) (f : SelectedFile) : FileMeta :=
  { id := f.name ++ "-" ++ toString f.size ++ "-" ++ toString f.lastModified ++
      "-" ++ toString index,
    name := f.name, sizeBytes := f.size, relativePath := f.relativePath,
    lastModified := f.lastModified, selectedAt := some nowIso,
    uploadedAt := none, processedAt := none, host := environment,
    status := FileStatus.pending, errorMessage := none,
    computerName := some computerName, userName := some userName,
    userAgent := some userAgent, uploadDuration := none, processDuration := none,
    fileType := some (getFileType f), mimeType := some f.mimeType,
    checksum := none, retryCount := some 0 }

/-- `handleFolderChange` on a non-null `FileList`: keeps only supported files,
registers each of them as a `pending` record, and logs one `info` summary
entry (counting supported vs. total files) followed by one `info` entry per
registered file.  Unsupported files are dropped before registration and get
no entry of their own.  (The per-file entry's rendered size from
`formatFileSize` is abstracted to the file name.) -/
def handleFolderChange (files : List SelectedFile)
    (nowIso environment computerName userName userAgent : String) :
    List FileMeta × List LogMsg :=
  let supported := files.filter isSupportedFile
  let metas := supported.mapIdx (mkMeta nowIso environment computerName userName userAgent)
  let summary : LogMsg :=
    { message := "Klasör seçildi: " ++ toString supported.length ++
        " desteklenen dosya bulundu (" ++ toString files.length ++ " toplam)",
      level := LogLevel.info }
  let perFile : List LogMsg :=
    supported.map (fun f => { message := "Dosya: " ++ f.name, level := LogLevel.info })
  (metas, summary :: perFile)

end WebClient

/-- **C8 counterexample.** Selecting `{a.txt, b.pdf, c.exe}` produces **zero**
warning-level log entries — not the one the claim requires for the unsupported
`c.exe` (only `info` entries are written). -/
theorem C8_warning_counterexample :
    ((WebClient.handleFolderChange
        [⟨"a.txt", 10, 0, none, "text/plain"⟩,
         ⟨"b.pdf", 20, 0, none, "application/pdf"⟩,
         ⟨"c.exe", 30, 0, none, "application/x-msdownload"⟩]
        "2025-01-01T00:00:00.000Z" "production" "Win32" "Unknown" "UA").2.filter
      (fun l => l.level == WebClient.LogLevel.warning)).length = 0 ∧
    ¬ ((WebClient.handleFolderChange
        [⟨"a.txt", 10, 0, none, "text/plain"⟩,
         ⟨"b.pdf", 20, 0, none, "application/pdf"⟩,
         ⟨"c.exe", 30, 0, none, "application/x-msdownload"⟩]
        "2025-01-01T00:00:00.000Z" "production" "Win32" "Unknown" "UA").2.filter
      (fun l => l.level == WebClient.LogLevel.warning)).length = 1 := by
  constructor
  · decide
  · decide

/-- **C8 (amended).** An unsupported file in a folder selection produces no
`FileRecord` (it is filtered out before registration: every registered record
bears a supported name, and there is exactly one record per supported file),
and every supported file of the selection is registered with the `pending`
status — but the unsupported file produces **no** warning-level log entry:
the selection writes one `info` summary entry plus one `info` entry per
registered file, and nothing at `warning` level. -/
theorem C8_folder_change_amended (files : List WebClient.SelectedFile)
    (nowIso environment computerName userName userAgent : String) :
    ((WebClient.handleFolderChange files nowIso environment computerName userName
        userAgent).1.length = (files.filter WebClient.isSupportedFile).length) ∧
    ((WebClient.handleFolderChange files nowIso environment computerName userName
        userAgent).1.all (fun m => m.status == WebClient.FileStatus.pending &&
          WebClient.isSupportedName m.name) = true) ∧
    ((WebClient.handleFolderChange files nowIso environment computerName userName
        userAgent).2.all (fun l => l.level != WebClient.LogLevel.warning) = true) ∧
    ((WebClient.handleFolderChange files nowIso environment computerName userName
        userAgent).2.length = (files.filter WebClient.isSupportedFile).length + 1) := by
  refine ⟨?_, ?_, ?_, ?_⟩
  · simp [WebClient.handleFolderChange]
  · rw [List.all_eq_true]
    intro m hm
    rw [WebClient.handleFolderChange] at hm
    simp only [List.mem_mapIdx] at hm
    obtain ⟨i, hi, rfl⟩ := hm
    have hmem := List.getElem_mem hi
    have hsup := List.of_mem_filter hmem
    rw [WebClient.mkMeta]
    simp only [Bool.and_eq_true, beq_iff_eq]
    exact ⟨rfl, hsup⟩
  · rw [WebClient.handleFolderChange]
    simp only [List.all_cons, Bool.and_eq_true]
    constructor
    · decide
    · rw [List.all_eq_true]
      intro l hl
      rw [List.mem_map] at hl
      obtain ⟨f, _, rfl⟩ := hl
      rfl
  · simp [WebClient.handleFolderChange]

namespace Db

/-- A `FileMetadata` row of the migration (columns beyond the primary key are
not needed for the referential behaviour; `name` stands in for them). -/
structure FileRow where
  id : String
  name : String
deriving DecidableEq

/-- A `Log` row of the migration: `id`, `message`, `level`, `timestamp` and the
nullable `fileId` column governed by
`FOREIGN KEY ("fileId") REFERENCES "FileMetadata"("id") ON DELETE SET NULL`. -/
structure LogRow where
  id : String
  message : String
  level : String
  timestamp : Nat
  fileId : Option String
deriving DecidableEq

/-- The durable store declared by the migration. -/
structure DbState where
  files : List FileRow
  logs : List LogRow
deriving DecidableEq

/-- Deleting one `FileMetadata` row under the migration's schema: the row is
removed and, per `ON DELETE SET NULL`, every `Log` row whose `fileId`
referenced it keeps all its columns but has `fileId` set to `NULL`; no `Log`
row is deleted. -/
def deleteFile (fid : String) (s : DbState) : DbState :=
  { files := s.files.filter (fun f => f.id != fid),
    logs := s.logs.map (fun l =>
      if l.fileId == some fid then { l with fileId := none } else l) }

end Db

/-- **C9.** `Log.fileId` is a weak reference: deleting the referenced
`FileMetadata` row deletes no log entry — the log table keeps its length, every
entry keeps its `id`, `message`, `level` and `timestamp`, entries that
referenced the deleted row get `fileId = NULL`, entries referencing anything
else keep their `fileId`, and the file row itself is gone. -/
theorem C9_log_weak_reference (s : Db.DbState) (fid : String) :
    ((Db.deleteFile fid s).logs.length = s.logs.length) ∧
    (∀ j l, s.logs.get? j = some l →
      ∃ l2, (Db.deleteFile fid s).logs.get? j = some l2 ∧
        l2.id = l.id ∧ l2.message = l.message ∧ l2.level = l.level ∧
        l2.timestamp = l.timestamp ∧
        (l.fileId = some fid → l2.fileId = none) ∧
        (l.fileId ≠ some fid → l2.fileId = l.fileId)) ∧
    ((Db.deleteFile fid s).files.all (fun f => f.id != fid) = true) := by
  refine ⟨?_, ?_, ?_⟩
  · simp [Db.deleteFile]
  · intro j l hl
    refine ⟨if l.fileId == some fid then { l with fileId := none } else l,
      ?_, ?_, ?_, ?_, ?_, ?_, ?_⟩
    · rw [Db.deleteFile]
      simp only
      rw [List.get?_map, hl]
      rfl
    · split <;> rfl
    · split <;> rfl
    · split <;> rfl
    · split <;> rfl
    · intro h
      simp [h]
    · intro h
      rw [if_neg]
      intro hc
      rw [beq_iff_eq] at hc
      exact h hc
  · rw [Db.deleteFile]
    simp only
    rw [List.all_eq_true]
    intro f hf
    exact (List.mem_filter.mp hf).2

/-- Witness for `C9_log_weak_reference`: a store with one file row and two log
entries, one referencing the file — after deleting the file, both entries
survive, the referencing one with `fileId = NULL`. -/
theorem C9_log_weak_reference_witness :
    (Db.deleteFile "f1"
      { files := [⟨"f1", "a.txt"⟩],
        logs := [⟨"l1", "Dosya: a.txt", "info", 1, some "f1"⟩,
                 ⟨"l2", "Klasör seçildi", "info", 0, none⟩] }).logs.length = 2 ∧
    (∃ l2, (Db.deleteFile "f1"
      { files := [⟨"f1", "a.txt"⟩],
        logs := [⟨"l1", "Dosya: a.txt", "info", 1, some "f1"⟩,
                 ⟨"l2", "Klasör seçildi", "info", 0, none⟩] }).logs.get? 0 = some l2 ∧
      l2.id = "l1" ∧ l2.message = "Dosya: a.txt" ∧ l2.level = "info" ∧
      l2.timestamp = 1 ∧ l2.fileId = none) := by
  constructor
  · exact (C9_log_weak_reference
      { files := [⟨"f1", "a.txt"⟩],
        logs := [⟨"l1", "Dosya: a.txt", "info", 1, some "f1"⟩,
                 ⟨"l2", "Klasör seçildi", "info", 0, none⟩] } "f1").1
  · obtain ⟨l2, h1, h2, h3, h4, h5, h6, h7⟩ := (C9_log_weak_reference
      { files := [⟨"f1", "a.txt"⟩],
        logs := [⟨"l1", "Dosya: a.txt", "info", 1, some "f1"⟩,
                 ⟨"l2", "Klasör seçildi", "info", 0, none⟩] } "f1").2.1 0
      ⟨"l1", "Dosya: a.txt", "info", 1, some "f1"⟩ rfl
    exact ⟨l2, h1, h2, h3, h4, h5, h6 rfl⟩

namespace FilesApi

/-- A stored `FileMetadata` record as the `PUT` route sees it (the fields the
web client actually patches, plus the two forced timestamp columns). -/
structure StoredFile where
  id : String
  status : String
  errorMessage : Option String
  retryCount : Nat
  uploadDuration : Option Nat
  processDuration : Option Nat
  uploadedAt : Option String
  processedAt : Option String
deriving DecidableEq

/-- The JSON body of a `PUT /api/files` request, minus `id`: `none` means the
key is absent from the patch (so the Prisma spread leaves the column alone). -/
structure FilePatch where
  status : Option String
  errorMessage : Option String
  retryCount : Option Nat
  uploadDuration : Option Nat
  processDuration : Option Nat
  uploadedAt : Option String
  processedAt : Option String
deriving DecidableEq

/-- The `PUT` handler's update:
`data: { ...updateData, uploadedAt: updateData.uploadedAt ? new Date(...) : null,
processedAt: updateData.processedAt ? new Date(...) : null }`.
Spread keys present in the patch replace the column, absent keys leave it —
except `uploadedAt`/`processedAt`, which are written unconditionally: to the
supplied value when it is truthy (a non-empty string), and to `NULL` when the
key is absent (or the supplied string is empty, which is falsy in JS). -/
def putUpdate (row : StoredFile) (p : FilePatch) : StoredFile :=
  { row with
    status := p.status.getD row.status,
    errorMessage := match p.errorMessage with
      | some e => some e
      | none => row.errorMessage,
    retryCount := p.retryCount.getD row.retryCount,
    uploadDuration := match p.uploadDuration with
      | some d => some d
      | none => row.uploadDuration,
    processDuration := match p.processDuration with
      | some d => some d
      | none => row.processDuration,
    uploadedAt := match p.uploadedAt with
      | some t => if t = "" then none else some t
      | none => none,
    processedAt := match p.processedAt with
      | some t => if t = "" then none else some t
      | none => none }

end FilesApi

/-- **C10.** A `PUT` whose patch omits `uploadedAt` (resp. `processedAt`)
overwrites the stored timestamp with `NULL` rather than leaving it unchanged —
in particular a previously set timestamp is lost — and the timestamp survives
the update only when the patch re-supplies it (any non-empty value); ordinary
fields such as `status` are, by contrast, preserved when omitted. -/
theorem C10_put_timestamps (row : FilesApi.StoredFile) (p : FilesApi.FilePatch) :
    (p.uploadedAt = none → (FilesApi.putUpdate row p).uploadedAt = none) ∧
    (p.uploadedAt = none → row.uploadedAt ≠ none →
      (FilesApi.putUpdate row p).uploadedAt ≠ row.uploadedAt) ∧
    (∀ t, p.uploadedAt = some t → t ≠ "" →
      (FilesApi.putUpdate row p).uploadedAt = some t) ∧
    (p.processedAt = none → (FilesApi.putUpdate row p).processedAt = none) ∧
    (p.processedAt = none → row.processedAt ≠ none →
      (FilesApi.putUpdate row p).processedAt ≠ row.processedAt) ∧
    (∀ t, p.processedAt = some t → t ≠ "" →
      (FilesApi.putUpdate row p).processedAt = some t) ∧
    (p.status = none → (FilesApi.putUpdate row p).status = row.status) := by
  refine ⟨?_, ?_, ?_, ?_, ?_, ?_, ?_⟩
  · intro h
    simp [FilesApi.putUpdate, h]
  · intro h hrow
    simp [FilesApi.putUpdate, h]
    intro heq
    exact hrow heq.symm
  · intro t ht hne
    simp [FilesApi.putUpdate, ht, hne]
  · intro h
    simp [FilesApi.putUpdate, h]
  · intro h hrow
    simp [FilesApi.putUpdate, h]
    intro heq
    exact hrow heq.symm
  · intro t ht hne
    simp [FilesApi.putUpdate, ht, hne]
  · intro h
    simp [FilesApi.putUpdate, h]

/-- Witness for `C10_put_timestamps`: the success-branch update the web client
sends after processing (`status`, `processedAt`, `processDuration` only — no
`uploadedAt`): the stored `uploadedAt` is nulled, `processedAt` is written,
`status` was supplied so omission-preservation is checked on a second patch
that omits everything. -/
theorem C10_put_timestamps_witness :
    (FilesApi.putUpdate
      { id := "f1", status := "uploaded", errorMessage := none, retryCount := 0,
        uploadDuration := some 120, processDuration := none,
        uploadedAt := some "2025-01-01T00:01:00.000Z", processedAt := none }
      { status := some "processed", errorMessage := none, retryCount := none,
        uploadDuration := none, processDuration := some 50,
        uploadedAt := none,
        processedAt := some "2025-01-01T00:02:00.000Z" }).uploadedAt = none ∧
    (FilesApi.putUpdate
      { id := "f1", status := "uploaded", errorMessage := none, retryCount := 0,
        uploadDuration := some 120, processDuration := none,
        uploadedAt := some "2025-01-01T00:01:00.000Z", processedAt := none }
      { status := some "processed", errorMessage := none, retryCount := none,
        uploadDuration := none, processDuration := some 50,
        uploadedAt := none,
        processedAt := some "2025-01-01T00:02:00.000Z" }).processedAt =
      some "2025-01-01T00:02:00.000Z" ∧
    (FilesApi.putUpdate
      { id := "f1", status := "uploaded", errorMessage := none, retryCount := 0,
        uploadDuration := some 120, processDuration := none,
        uploadedAt := some "2025-01-01T00:01:00.000Z", processedAt := none }
      { status := none, errorMessage := none, retryCount := none,
        uploadDuration := none, processDuration := none,
        uploadedAt := none, processedAt := none }).status = "uploaded" := by
  refine ⟨?_, ?_, ?_⟩
  · exact (C10_put_timestamps
      { id := "f1", status := "uploaded", errorMessage := none, retryCount := 0,
        uploadDuration := some 120, processDuration := none,
        uploadedAt := some "2025-01-01T00:01:00.000Z", processedAt := none }
      { status := some "processed", errorMessage := none, retryCount := none,
        uploadDuration := none, processDuration := some 50,
        uploadedAt := none,
        processedAt := some "2025-01-01T00:02:00.000Z" }).1 rfl
  · exact (C10_put_timestamps
      { id := "f1", status := "uploaded", errorMessage := none, retryCount := 0,
        uploadDuration := some 120, processDuration := none,
        uploadedAt := some "2025-01-01T00:01:00.000Z", processedAt := none }
      { status := some "processed", errorMessage := none, retryCount := none,
        uploadDuration := none, processDuration := some 50,
        uploadedAt := none,
        processedAt := some "2025-01-01T00:02:00.000Z" }).2.2.2.2.2.1
      "2025-01-01T00:02:00.000Z" rfl (by decide)
  · exact (C10_put_timestamps
      { id := "f1", status := "uploaded", errorMessage := none, retryCount := 0,
        uploadDuration := some 120, processDuration := none,
        uploadedAt := some "2025-01-01T00:01:00.000Z", processedAt := none }
      { status := none, errorMessage := none, retryCount := none,
        uploadDuration := none, processDuration := none,
        uploadedAt := none, processedAt := none }).2.2.2.2.2.2 rfl
